import Mathlib

/-!
Verification of the crime-severity scoring logic of `app.py`.

The program loads a table of incident rows (one per state/district/year,
with integer counts for six crime categories), computes a weighted
severity index per slice of the table, and classifies the index into
color and message bands.  We embed the rows, the `crime_weights` table,
`calculate_crime_severity`, and the two threshold classifiers, and prove
the specified properties about them.
-/

/-- One row of the `crime_data` table: identifying columns, coordinates,
and the six crime-category counts used by the severity scorer. -/
structure Row where
  state_ut : String
  district : String
  year : Int
  latitude : ℚ
  longitude : ℚ
  murder : ℕ
  rape : ℕ
  kidnapping_abduction : ℕ
  robbery : ℕ
  burglary : ℕ
  dowry_deaths : ℕ
  deriving DecidableEq, Repr

/-- The six crime-category column names appearing in `crime_weights`. -/
inductive CrimeCol
  | murder
  | rape
  | kidnapping_abduction
  | robbery
  | burglary
  | dowry_deaths
  deriving DecidableEq, Repr

/-- Column projection: the value of column `c` in one row (`df[col]` per row). -/
def Row.count (r : Row) : CrimeCol → ℕ
  | .murder => r.murder
  | .rape => r.rape
  | .kidnapping_abduction => r.kidnapping_abduction
  | .robbery => r.robbery
  | .burglary => r.burglary
  | .dowry_deaths => r.dowry_deaths

/-- Functional update of one category column of a row. -/
def Row.setCount (r : Row) : CrimeCol → ℕ → Row
  | .murder, n => { r with murder := n }
  | .rape, n => { r with rape := n }
  | .kidnapping_abduction, n => { r with kidnapping_abduction := n }
  | .robbery, n => { r with robbery := n }
  | .burglary, n => { r with burglary := n }
  | .dowry_deaths, n => { r with dowry_deaths := n }

/-- The fixed `crime_weights` dict of `app.py`, in insertion order. -/
def crime_weights : List (CrimeCol × ℕ) :=
  [(.murder, 5), (.rape, 4), (.kidnapping_abduction, 4),
   (.robbery, 3), (.burglary, 3), (.dowry_deaths, 3)]

/-- `df[col].sum()`: the sum of one category column over all rows. -/
def colSum (df : List Row) (c : CrimeCol) : ℕ :=
  (df.map (fun r => r.count c)).sum

/-- Round to the nearest integer with ties to even, the rounding mode of
Python's builtin `round`. -/
def roundHalfEven (q : ℚ) : ℤ :=
  if Int.fract q = 1/2 then 2 * round (q / 2) else round q

/-- Python `round(x, 2)`: round to two decimal places, ties to even. -/
def round2 (q : ℚ) : ℚ :=
  (roundHalfEven (q * 100) : ℚ) / 100

/-- The `weighted_sum` local of `calculate_crime_severity`, over an explicit
weight table `w`: sum over the table entries of `df[col].sum() * weight`. -/
def weighted_sum (w : List (CrimeCol × ℕ)) (df : List Row) : ℕ :=
  (w.map (fun p => colSum df p.1 * p.2)).sum

/-- The `max_possible` local of `calculate_crime_severity`: the sum over the
weight table of `500 * weight`. -/
def max_possible (w : List (CrimeCol × ℕ)) : ℕ :=
  (w.map (fun p => 500 * p.2)).sum

/-- The body of `calculate_crime_severity`, parametrized by the weight table
it iterates over: `(weighted_sum / max_possible) * 100 if max_possible > 0
else 0`, rounded to 2 decimal places. -/
def calc_severity_w (w : List (CrimeCol × ℕ)) (df : List Row) : ℚ :=
  let crime_index : ℚ :=
    if max_possible w > 0 then ((weighted_sum w df : ℚ) / (max_possible w : ℚ)) * 100 else 0
  round2 crime_index

/-- `calculate_crime_severity(df)` from `app.py`, with its fixed
`crime_weights` table. -/
def calculate_crime_severity (df : List Row) : ℚ :=
  calc_severity_w crime_weights df

/-- The marker-color choice of the map page (line 82 of `app.py`):
`'green' if severity < 25 else 'orange' if severity <= 55 else 'red'`. -/
def markerColor (severity : ℚ) : String :=
  if severity < 25 then "green" else if severity ≤ 55 then "orange" else "red"

/-- The safety message of the district analysis page (lines 123-128 of
`app.py`): `< 40` success, `< 70` warning, otherwise error. -/
def safetyMessage (crime_severity_index : ℚ) : String :=
  if crime_severity_index < 40 then "🟢 This area is relatively safe."
  else if crime_severity_index < 70 then "🟠 Moderate risk; stay cautious."
  else "🔴 High risk! Precaution is advised."

/-- The severity formula exactly as the specification words it: the weighted
sum over the six fixed categories of per-category count totals, divided by
the fixed normalizer (sum over categories of 500 times the category weight),
multiplied by 100, rounded to 2 decimal places.  Written from the spec for
the refinement claim C1. -/
def severityIndexSpec (df : List Row) : ℚ :=
  round2 ((((5 * colSum df .murder + 4 * colSum df .rape +
      4 * colSum df .kidnapping_abduction + 3 * colSum df .robbery +
      3 * colSum df .burglary + 3 * colSum df .dowry_deaths : ℕ) : ℚ) /
    ((500 * 5 + 500 * 4 + 500 * 4 + 500 * 3 + 500 * 3 + 500 * 3 : ℕ) : ℚ)) * 100)

/-- A convenience constructor for concrete incident rows. -/
def mkRow (m ra k ro b d : ℕ) : Row :=
  { state_ut := "Maharashtra", district := "Pune", year := 2024,
    latitude := 0, longitude := 0,
    murder := m, rape := ra, kidnapping_abduction := k,
    robbery := ro, burglary := b, dowry_deaths := d }

/-! ### Rounding lemmas -/

lemma roundHalfEven_bounds (q : ℚ) :
    q - 1/2 ≤ (roundHalfEven q : ℚ) ∧ (roundHalfEven q : ℚ) ≤ q + 1/2 := by
  unfold roundHalfEven
  split
  · rename_i hf
    have hq : q = (⌊q⌋ : ℚ) + 1/2 := by
      have := Int.fract_add_floor q
      rw [hf] at this
      linarith
    rcases Int.even_or_odd ⌊q⌋ with ⟨k, hk⟩ | ⟨k, hk⟩
    · have h2 : q / 2 = (k : ℚ) + 1/4 := by
        rw [hq, hk]; push_cast; ring
      have hr : round (q / 2) = k := by
        rw [h2, round_int_add]
        norm_num [round_eq]
      rw [hr, hq, hk]
      push_cast
      constructor <;> linarith
    · have h2 : q / 2 = (k : ℚ) + 3/4 := by
        rw [hq, hk]; push_cast; ring
      have hr : round (q / 2) = k + 1 := by
        rw [h2, round_int_add]
        norm_num [round_eq]
      rw [hr, hq, hk]
      push_cast
      constructor <;> linarith
  · have := abs_sub_round q
    rw [abs_le] at this
    constructor <;> linarith [this.1, this.2]

lemma roundHalfEven_mono {q q' : ℚ} (h : q ≤ q') :
    roundHalfEven q ≤ roundHalfEven q' := by
  by_contra hc
  push_neg at hc
  have h1 : roundHalfEven q' + 1 ≤ roundHalfEven q := hc
  have b1 := (roundHalfEven_bounds q).2
  have b2 := (roundHalfEven_bounds q').1
  have h1q : (roundHalfEven q' : ℚ) + 1 ≤ (roundHalfEven q : ℚ) := by
    exact_mod_cast h1
  have hqq : q' ≤ q := by linarith
  have heq : q = q' := le_antisymm h hqq
  rw [heq] at h1
  omega

lemma roundHalfEven_natCast (n : ℕ) : roundHalfEven (n : ℚ) = n := by
  unfold roundHalfEven
  rw [Int.fract_natCast, round_natCast]
  norm_num

lemma round2_mono {q q' : ℚ} (h : q ≤ q') : round2 q ≤ round2 q' := by
  unfold round2
  have hm := roundHalfEven_mono (mul_le_mul_of_nonneg_right h (by norm_num : (0:ℚ) ≤ 100))
  have hc : (roundHalfEven (q * 100) : ℚ) ≤ (roundHalfEven (q' * 100) : ℚ) := by
    exact_mod_cast hm
  linarith

lemma round2_natCast (n : ℕ) : round2 (n : ℚ) = n := by
  unfold round2
  rw [show ((n : ℚ) * 100) = ((n * 100 : ℕ) : ℚ) by push_cast; ring]
  rw [roundHalfEven_natCast]
  push_cast
  field_simp

lemma round2_zero : round2 0 = 0 := by
  have h := round2_natCast 0
  simpa using h

/-! ### Structural lemmas about the severity computation -/

lemma max_possible_eq : max_possible crime_weights = 11000 := by
  norm_num [max_possible, crime_weights]

lemma weighted_sum_eq (df : List Row) :
    weighted_sum crime_weights df =
      colSum df .murder * 5 + colSum df .rape * 4 +
      colSum df .kidnapping_abduction * 4 + colSum df .robbery * 3 +
      colSum df .burglary * 3 + colSum df .dowry_deaths * 3 := by
  simp [weighted_sum, crime_weights]
  ring

lemma severity_eq (df : List Row) :
    calculate_crime_severity df =
      round2 ((weighted_sum crime_weights df : ℚ) / 11000 * 100) := by
  unfold calculate_crime_severity calc_severity_w
  rw [max_possible_eq]
  norm_num

lemma colSum_cons (r : Row) (df : List Row) (c : CrimeCol) :
    colSum (r :: df) c = r.count c + colSum df c := by
  simp [colSum]

lemma colSum_append (df1 df2 : List Row) (c : CrimeCol) :
    colSum (df1 ++ df2) c = colSum df1 c + colSum df2 c := by
  simp [colSum]

lemma count_setCount (r : Row) (c c' : CrimeCol) (n : ℕ) :
    (r.setCount c n).count c' = if c' = c then n else r.count c' := by
  cases c <;> cases c' <;> simp [Row.setCount, Row.count]

/-! ### Claims -/

/-- Claim C1: for every incident table, `calculate_crime_severity` returns the
weighted sum over the six fixed categories (murder 5, rape 4, kidnapping and
abduction 4, robbery 3, burglary 3, dowry deaths 3) of per-category count
totals, divided by the fixed normalizer (sum over categories of 500 times the
category weight), multiplied by 100 and rounded to 2 decimal places — i.e. it
coincides with `severityIndexSpec`. -/
theorem C1_severity_formula (df : List Row) :
    calculate_crime_severity df = severityIndexSpec df := by
  rw [severity_eq]
  unfold severityIndexSpec
  rw [weighted_sum_eq]
  norm_num
  congr 1
  ring

/-- Claim C2: the map-page marker band is exactly `severity < 25` green (low),
`25 ≤ severity ≤ 55` orange (moderate), `severity > 55` red (high). -/
theorem C2_marker_bands (s : ℚ) :
    (markerColor s = "green" ↔ s < 25) ∧
    (markerColor s = "orange" ↔ 25 ≤ s ∧ s ≤ 55) ∧
    (markerColor s = "red" ↔ 55 < s) := by
  unfold markerColor
  split_ifs with h1 h2 <;> refine ⟨?_, ?_, ?_⟩ <;> simp_all <;> intros <;> linarith

/-- Claim C3: the district analysis page classifies `index < 40` as the
relatively-safe message, `40 ≤ index < 70` as the moderate-risk message, and
`index ≥ 70` as the high-risk message. -/
theorem C3_safety_bands (i : ℚ) :
    (safetyMessage i = "🟢 This area is relatively safe." ↔ i < 40) ∧
    (safetyMessage i = "🟠 Moderate risk; stay cautious." ↔ 40 ≤ i ∧ i < 70) ∧
    (safetyMessage i = "🔴 High risk! Precaution is advised." ↔ 70 ≤ i) := by
  unfold safetyMessage
  split_ifs with h1 h2 <;> refine ⟨?_, ?_, ?_⟩ <;> simp_all <;> intros <;> linarith

/-- Claim C4: increasing one category's count in any single row of the table,
holding every other count fixed, never decreases the severity index. -/
theorem C4_monotone (pre post : List Row) (r : Row) (c : CrimeCol) (δ : ℕ) :
    calculate_crime_severity (pre ++ r :: post) ≤
      calculate_crime_severity (pre ++ r.setCount c (r.count c + δ) :: post) := by
  rw [severity_eq, severity_eq]
  apply round2_mono
  have hws : weighted_sum crime_weights (pre ++ r :: post) ≤
      weighted_sum crime_weights (pre ++ r.setCount c (r.count c + δ) :: post) := by
    rw [weighted_sum_eq, weighted_sum_eq]
    simp only [colSum_append, colSum_cons]
    cases c <;> simp [Row.setCount, Row.count]
  have hq : ((weighted_sum crime_weights (pre ++ r :: post) : ℚ)) ≤
      ((weighted_sum crime_weights (pre ++ r.setCount c (r.count c + δ) :: post) : ℚ)) := by
    exact_mod_cast hws
  gcongr

/-- Claim C5, counterexample: the claim that the index always lies in
`[0, 100]` fails — a single row with murder count 2300 (and the other
categories 0) produces an index strictly above 100, because the code never
caps the per-category totals at the fixed ceiling 500. -/
theorem C5_counterexample :
    100 < calculate_crime_severity [mkRow 2300 0 0 0 0 0] := by
  norm_num [calculate_crime_severity, calc_severity_w, weighted_sum, max_possible,
    colSum, crime_weights, Row.count, mkRow, round2, roundHalfEven, round_eq,
    Int.fract, Int.floor_eq_iff]

/-- Claim C5, amended: the severity index is always nonnegative
(unconditionally), and it is at most 100 for every incident table whose
per-category column totals are each at most the fixed ceiling 500. -/
theorem C5_severity_range (df : List Row) :
    0 ≤ calculate_crime_severity df ∧
      ((∀ c : CrimeCol, colSum df c ≤ 500) → calculate_crime_severity df ≤ 100) := by
  rw [severity_eq]
  constructor
  · have h0 : (0:ℚ) ≤ (weighted_sum crime_weights df : ℚ) / 11000 * 100 := by positivity
    calc (0:ℚ) = round2 0 := round2_zero.symm
    _ ≤ _ := round2_mono h0
  · intro h
    have hws : weighted_sum crime_weights df ≤ 11000 := by
      rw [weighted_sum_eq]
      have h1 := h .murder
      have h2 := h .rape
      have h3 := h .kidnapping_abduction
      have h4 := h .robbery
      have h5 := h .burglary
      have h6 := h .dowry_deaths
      omega
    have h100 : (weighted_sum crime_weights df : ℚ) / 11000 * 100 ≤ ((100:ℕ):ℚ) := by
      rw [div_mul_eq_mul_div]
      rw [div_le_iff₀ (by norm_num : (0:ℚ) < 11000)]
      have hcast : (weighted_sum crime_weights df : ℚ) ≤ 11000 := by exact_mod_cast hws
      push_cast
      linarith
    calc round2 _ ≤ round2 ((100:ℕ):ℚ) := round2_mono h100
    _ = 100 := by rw [round2_natCast]; norm_num

theorem C5_severity_range_witness :
    0 ≤ calculate_crime_severity [mkRow 100 0 0 0 0 0] ∧
      calculate_crime_severity [mkRow 100 0 0 0 0 0] ≤ 100 :=
  ⟨(C5_severity_range [mkRow 100 0 0 0 0 0]).1,
    (C5_severity_range [mkRow 100 0 0 0 0 0]).2
      (by intro c; cases c <;> simp [colSum, Row.count, mkRow])⟩

/-- Claim C6: a zero normalizer is guarded — the body of
`calculate_crime_severity` returns 0 whenever `max_possible` sums to 0 instead
of dividing by zero; and for the fixed `crime_weights` table the normalizer is
positive, so on every input the division branch (not the guard branch) is the
one taken. -/
theorem C6_division_guard :
    (∀ (w : List (CrimeCol × ℕ)) (df : List Row),
        max_possible w = 0 → calc_severity_w w df = 0) ∧
    (∀ df : List Row, 0 < max_possible crime_weights ∧
        calculate_crime_severity df =
          round2 ((weighted_sum crime_weights df : ℚ) /
            (max_possible crime_weights : ℚ) * 100)) := by
  constructor
  · intro w df h
    unfold calc_severity_w
    simp [h, round2_zero]
  · intro df
    refine ⟨by rw [max_possible_eq]; norm_num, ?_⟩
    rw [severity_eq, max_possible_eq]
    norm_num

theorem C6_division_guard_witness :
    max_possible [] = 0 ∧ calc_severity_w [] [] = 0 :=
  ⟨rfl, C6_division_guard.1 [] [] rfl⟩

/-- Claim C7: for every incident table in which all six category counts are
zero in every row, `calculate_crime_severity` returns exactly 0. -/
theorem C7_all_zero (df : List Row)
    (h : ∀ r ∈ df, ∀ c : CrimeCol, r.count c = 0) :
    calculate_crime_severity df = 0 := by
  have hcol : ∀ c : CrimeCol, colSum df c = 0 := by
    intro c
    unfold colSum
    apply List.sum_eq_zero
    intro x hx
    rcases List.mem_map.mp hx with ⟨r, hr, rfl⟩
    exact h r hr c
  rw [severity_eq, weighted_sum_eq]
  simp [hcol, round2_zero]

theorem C7_all_zero_witness : calculate_crime_severity [mkRow 0 0 0 0 0 0] = 0 :=
  C7_all_zero [mkRow 0 0 0 0 0 0]
    (by intro r hr c; simp at hr; subst hr; cases c <;> rfl)

/-- Claim C8: the severity index is invariant under any permutation of the
table's rows. -/
theorem C8_row_order_invariant (df df' : List Row) (h : df.Perm df') :
    calculate_crime_severity df = calculate_crime_severity df' := by
  have hcol : ∀ c : CrimeCol, colSum df c = colSum df' c := by
    intro c
    exact (h.map (fun r => r.count c)).sum_eq
  rw [severity_eq, severity_eq, weighted_sum_eq, weighted_sum_eq]
  simp [hcol]

theorem C8_row_order_invariant_witness :
    calculate_crime_severity [mkRow 1 2 3 4 5 6, mkRow 7 8 9 10 11 12] =
      calculate_crime_severity [mkRow 7 8 9 10 11 12, mkRow 1 2 3 4 5 6] :=
  C8_row_order_invariant _ _ (List.Perm.swap _ _ _)

/-- Claim C9: with the fixed weights, a single row with murder count 100 and
all other categories 0 yields `weighted_sum` 500, `max_possible` 11000, and a
severity index of 4.55. -/
theorem C9_worked_example :
    weighted_sum crime_weights [mkRow 100 0 0 0 0 0] = 500 ∧
    max_possible crime_weights = 11000 ∧
    calculate_crime_severity [mkRow 100 0 0 0 0 0] = 455/100 := by
  refine ⟨?_, max_possible_eq, ?_⟩
  · norm_num [weighted_sum, crime_weights, colSum, Row.count, mkRow]
  · norm_num [calculate_crime_severity, calc_severity_w, weighted_sum, max_possible,
      colSum, crime_weights, Row.count, mkRow, round2, roundHalfEven, round_eq,
      Int.fract, Int.floor_eq_iff]

/-- Claim C10: two tables that agree row for row on the six weighted category
columns receive the same severity index, whatever their other columns (state,
district, year, coordinates) contain. -/
theorem C10_noninterference (df df' : List Row)
    (h : List.Forall₂ (fun r r' => ∀ c : CrimeCol, r.count c = r'.count c) df df') :
    calculate_crime_severity df = calculate_crime_severity df' := by
  have hcol : ∀ c : CrimeCol, colSum df c = colSum df' c := by
    intro c
    induction h with
    | nil => rfl
    | cons hab _ ih => rw [colSum_cons, colSum_cons, hab c, ih]
  rw [severity_eq, severity_eq, weighted_sum_eq, weighted_sum_eq]
  simp [hcol]

theorem C10_noninterference_witness :
    calculate_crime_severity [mkRow 1 2 3 4 5 6] =
      calculate_crime_severity
        [{ state_ut := "Kerala", district := "Kochi", year := 1999,
           latitude := 10, longitude := 76,
           murder := 1, rape := 2, kidnapping_abduction := 3,
           robbery := 4, burglary := 5, dowry_deaths := 6 }] :=
  C10_noninterference _ _
    (List.Forall₂.cons (fun c => by cases c <;> rfl) List.Forall₂.nil)
